import Mathlib

/-!
Verification of the AliveHunter probing engine (v3.2 source) against its
natural-language specification.  The Go source is shallowly embedded:
strings are lists of characters, the HTTP network is an oracle function
from call index to outcome, and `CheckURL` is a pure function returning
the produced `Result` together with the number of network calls issued.
Wall-clock fields (response time) and I/O read failures are outside the
embedding; a failed body read is modelled as an absent body.
-/

namespace AliveHunter

/-- Strings are modelled as lists of characters. -/
abbrev Str := List Char

/-- Lowercasing, as `strings.ToLower` (ASCII case mapping suffices here). -/
def lowerStr (s : Str) : Str := s.map Char.toLower

/-- Substring test, as Go `strings.Contains(s, pat)`. -/
def strContains (s pat : Str) : Bool :=
  match s with
  | [] => pat.isEmpty
  | _ :: t => pat.isPrefixOf s || strContains t pat

/-- Prefix removal, as Go `strings.TrimPrefix`. -/
def trimPrefixStr (s pre : Str) : Str :=
  if pre.isPrefixOf s then s.drop pre.length else s

/-- Whitespace predicate of Go `unicode.IsSpace` restricted to Latin-1,
the range relevant to the embedded code. -/
def isGoSpace (c : Char) : Bool :=
  c = ' ' || c = '\t' || c = '\n' || c = '\x0b' || c = '\x0c' || c = '\r' ||
  c = '\x85' || c = '\xA0'

/-- Whitespace class of the RE2 pattern `\s` used by `whitespaceRegex`. -/
def isRegexSpace (c : Char) : Bool :=
  c = '\t' || c = '\n' || c = '\x0c' || c = '\r' || c = ' '

/-- Both-ends whitespace trimming, as Go `strings.TrimSpace`. -/
def trimSpace (s : Str) : Str :=
  ((s.dropWhile isGoSpace).reverse.dropWhile isGoSpace).reverse

/-- Replacement of each maximal `\s+` run by a single space, as
`whitespaceRegex.ReplaceAllString(s, " ")`.  The boolean argument records
whether the previous character belonged to a whitespace run. -/
def collapseWsAux : Bool → Str → Str
  | _, [] => []
  | prevSpace, c :: rest =>
    if isRegexSpace c then
      if prevSpace then collapseWsAux true rest
      else ' ' :: collapseWsAux true rest
    else c :: collapseWsAux false rest

/-- Whitespace-run collapsing over a whole string. -/
def collapseWs (s : Str) : Str := collapseWsAux false s

/-- First index at which `pat` occurs in `s`, as Go `strings.Index`. -/
def indexOfSub (s pat : Str) : Option Nat :=
  if pat.isPrefixOf s then some 0
  else
    match s with
    | [] => none
    | _ :: t => (indexOfSub t pat).map (· + 1)

/-! ## Configuration and data model (`Config`, `Result`, responses) -/

/-- The configuration fields of `Config` consumed by the embedded engine
(worker counts, rate and timeouts drive scheduling only). -/
structure Config where
  fastMode : Bool
  verifyMode : Bool
  extractTitle : Bool
  robustTitle : Bool
  followRedirect : Bool
  onlyStatus : List Int
  maxBodySize : Nat

/-- An HTTP response as observed by the engine: status code, the headers it
reads, content length, and the body (`none` models a nil body or a body
whose read failed). -/
structure Resp where
  status : Int
  server : Str
  contentType : Str
  location : Str
  contentLength : Int
  body : Option Str

/-- Outcome of one `client.Do` network call. -/
inductive NetEvent where
  | fail (msg : Str)
  | ok (resp : Resp)

/-- The external world: `net k` is the outcome of the k-th network call of
the probe; `robustScan` abstracts the x/net/html tokenizer (the text token
immediately following the first `title` start tag, if any); `parseOK`
abstracts `url.ParseRequestURI` succeeding. -/
structure Env where
  net : Nat → NetEvent
  robustScan : Str → Option Str
  parseOK : Str → Bool

/-- The `Result` record (`ResponseTime` is wall-clock and not modelled). -/
structure Result where
  url : Str
  status : Int
  length : Int
  title : Str
  server : Str
  redirect : Str
  error : Str
  alive : Bool
  verified : Bool

/-- Go zero value of `Result` with the `URL` field set, as
`&Result{URL: rawURL}`. -/
def emptyResult (u : Str) : Result :=
  { url := u, status := 0, length := 0, title := [], server := [],
    redirect := [], error := [], alive := false, verified := false }

/-! ## Status classification -/

/-- The hardcoded `aliveStatuses` list of `isAliveStatus`. -/
def aliveStatuses : List Int :=
  [200, 201, 202, 204, 206,
   301, 302, 303, 307, 308,
   401, 403,
   405, 406, 409, 410,
   429,
   500, 501, 502, 503]

/-- `isAliveStatus`: allow-list membership when `OnlyStatus` is nonempty,
otherwise membership in the fixed `aliveStatuses` list. -/
def isAliveStatus (status : Int) (config : Config) : Bool :=
  if 0 < config.onlyStatus.length then
    config.onlyStatus.contains status
  else
    aliveStatuses.contains status

/-- `isRedirect`: 3xx test. -/
def isRedirect (status : Int) : Bool :=
  decide (300 ≤ status) && decide (status < 400)

/-! ## URL validation -/

/-- The characters rejected by `isValidURL` via `strings.ContainsAny`. -/
def forbiddenChars : List Char :=
  [' ', '\t', '\n', '\r', '<', '>', '\"', '\x7b', '\x7d', '|', '\\', '^',
   '\x60', '[', ']']

/-- `isValidURL`: rejects empty, over-length (> 200) and forbidden-character
inputs, then defers to the standard URL parser (abstracted by `parseOK`)
after prepending `https://` when no scheme separator is present. -/
def isValidURL (parseOK : Str → Bool) (rawURL : Str) : Bool :=
  if rawURL.isEmpty || decide (200 < rawURL.length) then false
  else if rawURL.any (fun c => forbiddenChars.contains c) then false
  else
    let testURL := if strContains rawURL "://".data then rawURL
                   else "https://".data ++ rawURL
    parseOK testURL

/-! ## Verification engine -/

/-- The hardcoded `genericServerSignatures` list. -/
def genericServerSignatures : List Str :=
  ["cloudflare".data, "nginx".data, "apache".data, "iis".data,
   "lighttpd".data]

/-- `shouldVerifyResponse`: never in fast mode, always in verify mode,
otherwise only for a 200 HTML response from a generic server signature. -/
def shouldVerifyResponse (resp : Resp) (config : Config) : Bool :=
  if config.fastMode then false
  else if config.verifyMode then true
  else
    genericServerSignatures.any (fun sig =>
      strContains (lowerStr resp.server) sig &&
      resp.status == 200 &&
      strContains (lowerStr resp.contentType) "text/html".data)

/-- The hardcoded `falsePositivePatterns` catalogue. -/
def falsePositivePatterns : List Str :=
  ["domain for sale".data,
   "this domain is for sale".data,
   "page not found".data,
   "404 not found".data,
   "file not found".data,
   "this domain may be for sale".data,
   "parked domain".data,
   "domain parking".data,
   "coming soon".data,
   "under construction".data,
   "default page".data,
   "welcome to nginx".data,
   "apache2 default page".data,
   "iis windows server".data,
   "default website".data,
   "placeholder page".data,
   "this site can't be reached".data,
   "website temporarily unavailable".data,
   "suspended".data,
   "account suspended".data,
   "hosting account".data,
   "plesk default page".data,
   "cpanel".data,
   "whm default page".data,
   "godaddy".data,
   "namecheap".data,
   "sedo domain parking".data]

/-- `verifyResponseBody`: a nil body trivially verifies; otherwise the
lowercased 2048-character read prefix must contain no catalogue phrase.
(The Go function's error component is constantly nil and is dropped.) -/
def verifyResponseBody (body : Option Str) : Bool :=
  match body with
  | none => true
  | some b =>
    let content := lowerStr (b.take 2048)
    !(falsePositivePatterns.any (fun p => strContains content p))

/-! ## Title extraction -/

/-- `TITLE_BODY_SIZE`: read budget for title extraction. -/
def TITLE_BODY_SIZE : Nat := 8192

/-- The scanning half of `extractTitleFast`: locate the opening marker
(`<title>` first, then `<title ` with attributes), then the closing
`</title>`, and return the original-case slice between them. -/
def fastSlice (body : Str) : Option Str :=
  let chunk := body.take TITLE_BODY_SIZE
  let content := lowerStr chunk
  let titleStart : Option Nat :=
    match indexOfSub content "<title>".data with
    | some idx => some (idx + 7)
    | none =>
      match indexOfSub content "<title ".data with
      | some idx =>
        (indexOfSub (content.drop idx) ">".data).map
          (fun closeIdx => idx + closeIdx + 1)
      | none => none
  match titleStart with
  | none => none
  | some ts =>
    match indexOfSub (content.drop ts) "</title>".data with
    | none => none
    | some e => some ((chunk.drop ts).take e)

/-- The cleaning pipeline of `extractTitleFast` before truncation:
trim, collapse whitespace runs, trim again. -/
def cleanFast (raw : Str) : Str := trimSpace (collapseWs (trimSpace raw))

/-- The cleaning pipeline of `extractTitleRobust` before truncation:
trim, then collapse whitespace runs. -/
def cleanRobust (d : Str) : Str := collapseWs (trimSpace d)

/-- The shared long-title truncation step: over 100 characters, keep the
first 100 and append the ellipsis marker. -/
def truncate100 (t : Str) : Str :=
  if 100 < t.length then t.take 100 ++ "...".data else t

/-- `extractTitleFast`, assembled from its scan, clean and truncate parts. -/
def extractTitleFast (body : Str) : Str :=
  match fastSlice body with
  | none => []
  | some raw => truncate100 (cleanFast raw)

/-- `extractTitleRobust`: the x/net/html tokenizer (abstracted by
`robustScan`, applied to the `TITLE_BODY_SIZE`-limited stream) yields the
title text token, which is trimmed, collapsed and truncated. -/
def extractTitleRobust (robustScan : Str → Option Str) (body : Str) : Str :=
  match robustScan (body.take TITLE_BODY_SIZE) with
  | none => []
  | some d => truncate100 (cleanRobust d)

/-- `extractTitle`: strategy dispatch on `RobustTitle`. -/
def extractTitle (robust : Bool) (robustScan : Str → Option Str)
    (body : Str) : Str :=
  if robust then extractTitleRobust robustScan body else extractTitleFast body

/-! ## The probe (`CheckURL`) -/

/-- The body stored by `CheckURL` after a GET: the `MaxBodySize`-limited
read, re-wrapped for later reuse; absent for HEAD or a missing body. -/
def storedBody (config : Config) (isGET : Bool) (resp : Resp) : Option Str :=
  match isGET, resp.body with
  | true, some b => some (b.take config.maxBodySize)
  | _, _ => none

/-- The `Length` field computed by `CheckURL`: actual read length after a
GET, otherwise the positive `ContentLength` header if any. -/
def storedLength (config : Config) (isGET : Bool) (resp : Resp) : Int :=
  match isGET, resp.body with
  | true, some b => ((b.take config.maxBodySize).length : Int)
  | _, _ => if 0 < resp.contentLength then resp.contentLength else 0

/-- `performVerification`: reuse the stored body when the probe already did
a GET (its verifier never errors), otherwise issue a fresh verification
GET, erroring when that call fails. -/
def performVerification (env : Env) (alreadyGET : Bool)
    (bodyStored : Option Str) (calls : Nat) : Except Str Bool × Nat :=
  if alreadyGET && bodyStored.isSome then
    (Except.ok (verifyResponseBody bodyStored), calls)
  else
    match env.net calls with
    | NetEvent.fail m =>
      (Except.error ("verification_request_failed: ".data ++ m), calls + 1)
    | NetEvent.ok resp => (Except.ok (verifyResponseBody resp.body), calls + 1)

/-- Characters of the stored body already consumed by an in-place
verification read (one 2048-byte read on the shared reader). -/
def consumedAmount (bodyStored : Option Str) : Nat :=
  match bodyStored with
  | some b => min 2048 b.length
  | none => 0

/-- The tail of `CheckURL`'s alive branch: title extraction (reusing the
stored body at its current read position, or one extra GET) followed by
redirect recording.  Only the `Title` and `Redirect` fields change. -/
def titleAndRedirect (env : Env) (config : Config) (isGET : Bool)
    (bodyStored : Option Str) (consumed : Nat) (resp : Resp) (r : Result)
    (calls : Nat) : Result × Nat :=
  let step1 : Result × Nat :=
    if config.extractTitle then
      if isGET && bodyStored.isSome then
        ({ r with title := extractTitle config.robustTitle env.robustScan
                             ((bodyStored.getD []).drop consumed) }, calls)
      else
        match env.net calls with
        | NetEvent.ok tresp =>
          ({ r with title := extractTitle config.robustTitle env.robustScan
                               (tresp.body.getD []) }, calls + 1)
        | NetEvent.fail _ => (r, calls + 1)
    else (r, calls)
  let step2 : Result :=
    if isRedirect resp.status && !resp.location.isEmpty then
      { step1.1 with redirect := resp.location }
    else step1.1
  (step2, step1.2)

/-- The body of `CheckURL`'s response-processing block (populating the
result, status classification, verification with its early
`false_positive_detected` return, then title and redirect). -/
def processResponse (env : Env) (config : Config) (rawURL fullURL : Str)
    (isGET : Bool) (resp : Resp) (calls : Nat) : Result × Nat :=
  let bodyStored := storedBody config isGET resp
  let r1 : Result :=
    { emptyResult rawURL with
        url := fullURL, status := resp.status, server := resp.server,
        length := storedLength config isGET resp }
  if isAliveStatus resp.status config then
    let r2 := { r1 with alive := true }
    if !config.fastMode && shouldVerifyResponse resp config then
      match performVerification env isGET bodyStored calls with
      | (Except.error e, calls') =>
        titleAndRedirect env config isGET bodyStored 0 resp
          { r2 with error := "verification_failed: ".data ++ e } calls'
      | (Except.ok false, calls') =>
        ({ r2 with alive := false,
                   error := "false_positive_detected".data }, calls')
      | (Except.ok true, calls') =>
        titleAndRedirect env config isGET bodyStored
          (consumedAmount bodyStored) resp { r2 with verified := true } calls'
    else
      titleAndRedirect env config isGET bodyStored 0 resp r2 calls
  else
    (r1, calls)

/-- Scheme stripping applied before re-prefixing each protocol, as
`strings.TrimPrefix(strings.TrimPrefix(rawURL, "https://"), "http://")`. -/
def stripScheme (u : Str) : Str :=
  trimPrefixStr (trimPrefixStr u "https://".data) "http://".data

/-- The protocol loop of `CheckURL`: one `Do` per protocol, a single
backoff retry in non-fast mode, processing of the first response obtained,
and the connection-failure summary when every attempt errors. -/
def tryProtocols (env : Env) (config : Config) (rawURL : Str) :
    List Str → Option Str → Nat → Result × Nat
  | [], lastError, calls =>
    ({ emptyResult rawURL with
         error := match lastError with
           | some m => "connection_failed: ".data ++ m
           | none => "no_response".data }, calls)
  | protocol :: rest, _lastError, calls =>
    let fullURL := protocol ++ stripScheme rawURL
    let isGET := config.extractTitle
    match env.net calls with
    | NetEvent.ok resp =>
      processResponse env config rawURL fullURL isGET resp (calls + 1)
    | NetEvent.fail m =>
      if config.fastMode then
        tryProtocols env config rawURL rest (some m) (calls + 1)
      else
        match env.net (calls + 1) with
        | NetEvent.ok resp =>
          processResponse env config rawURL fullURL isGET resp (calls + 2)
        | NetEvent.fail m2 =>
          tryProtocols env config rawURL rest (some m2) (calls + 2)

/-- `CheckURL`: validation guard, then HTTPS-before-HTTP protocol attempts.
Returns the `Result` and the total number of network calls issued. -/
def CheckURL (env : Env) (config : Config) (rawURL : Str) : Result × Nat :=
  if isValidURL env.parseOK rawURL then
    tryProtocols env config rawURL ["https://".data, "http://".data] none 0
  else
    ({ emptyResult rawURL with error := "invalid_url".data }, 0)

/-! ## Status allow-list parsing (`main`, the `-mc` flag) -/

/-- Leading-integer scan of one token, as `fmt.Sscanf(tok, "%d", &code)`:
optional sign then a nonempty digit prefix; trailing characters are
ignored; no digits means a scan error.  The collected digits go through
`strconv.ParseInt(…, 10, 64)`, so a value outside the signed 64-bit
range is a range error and the scan fails. -/
def scanInt (tok : Str) : Option Int :=
  let t := tok.dropWhile isGoSpace
  let signAndRest : Int × Str :=
    match t with
    | '-' :: r => (-1, r)
    | '+' :: r => (1, r)
    | _ => (1, t)
  let ds := signAndRest.2.takeWhile Char.isDigit
  if ds.isEmpty then none
  else
    let v : Int := signAndRest.1 *
      (ds.foldl (fun n c => n * 10 + (c.toNat - '0'.toNat)) 0 : Nat)
    if v < -9223372036854775808 || 9223372036854775807 < v then none
    else some v

/-- The `-mc` parsing loop of `main`: split on commas, keep each token the
scanner accepts (appending in order), then `sort.Ints`. -/
def parseStatusCodes (s : Str) : List Int :=
  if s.isEmpty then []
  else
    List.insertionSort (· ≤ ·)
      ((List.splitOn ',' s).foldl
        (fun acc part =>
          match scanInt (trimSpace part) with
          | some code => acc ++ [code]
          | none => acc) [])

/-! ## Definitions following the spec's words (for refinement comparison) -/

/-- The spec's description of the reliable-alive set: all 2xx success
codes, all 3xx redirects, 401, 403, 405, 406, 409, 410, 429, and all 5xx
server errors.  Stated from the spec's words, to be compared with the
source's `aliveStatuses`. -/
def specReliableAlive (s : Int) : Bool :=
  (decide (200 ≤ s) && decide (s ≤ 299)) ||
  (decide (300 ≤ s) && decide (s ≤ 399)) ||
  s == 401 || s == 403 || s == 405 || s == 406 || s == 409 || s == 410 ||
  s == 429 ||
  (decide (500 ≤ s) && decide (s ≤ 599))

/-- The spec's description of the verification trigger: never in fast
mode, always in verify mode, otherwise exactly when the response is a
2xx, the content type is HTML-like and the server signature is generic.
Stated from the spec's words, to be compared with `shouldVerifyResponse`. -/
def specShouldVerify (resp : Resp) (config : Config) : Bool :=
  if config.fastMode then false
  else if config.verifyMode then true
  else
    (decide (200 ≤ resp.status) && decide (resp.status ≤ 299)) &&
    strContains (lowerStr resp.contentType) "text/html".data &&
    genericServerSignatures.any (fun sig =>
      strContains (lowerStr resp.server) sig)

/-- The claim's notion of a valid allow-list token: after trimming, an
optionally-signed nonempty digit string and nothing else.  Stated from
the spec's words, to be compared with the source's `Sscanf` scan. -/
def isIntegerToken (tok : Str) : Bool :=
  let t := trimSpace tok
  let digits : Str :=
    match t with
    | '-' :: r => r
    | '+' :: r => r
    | _ => t
  !digits.isEmpty && digits.all Char.isDigit

/-! ## Shared concrete inputs for witnesses and counterexamples -/

/-- The default `Config` built by `main` before flag overrides. -/
def defaultConfig : Config :=
  { fastMode := false, verifyMode := false, extractTitle := false,
    robustTitle := false, followRedirect := false, onlyStatus := [],
    maxBodySize := 10240 }

/-- A config with the `{200, 301}` allow-list of the spec's example. -/
def allowListConfig : Config := { defaultConfig with onlyStatus := [200, 301] }

/-- The default config with verify mode switched on. -/
def verifyConfig : Config := { defaultConfig with verifyMode := true }

/-- An environment whose every network call fails. -/
def trivialEnv : Env :=
  { net := fun _ => NetEvent.fail "refused".data,
    robustScan := fun _ => none, parseOK := fun _ => true }

/-- A 200 HTML response from an nginx server, body not yet fetched. -/
def respHead200 : Resp :=
  { status := 200, server := "nginx".data, contentType := "text/html".data,
    location := [], contentLength := 0, body := none }

/-- A 201 HTML response from an nginx server. -/
def resp201 : Resp := { respHead200 with status := 201 }

/-- A fetched response whose body carries a parked-domain phrase. -/
def respParked : Resp :=
  { status := 200, server := [], contentType := [], location := [],
    contentLength := 0, body := some "Great DOMAIN For SALE here".data }

/-- A fetched response with an innocuous body. -/
def respClean : Resp :=
  { status := 200, server := [], contentType := [], location := [],
    contentLength := 0, body := some "hello".data }

/-- An environment whose verification fetch returns a parked body. -/
def envParked : Env := { trivialEnv with net := fun _ => NetEvent.ok respParked }

/-- An environment producing a clean verified run: the probe sees a 200
and the verification fetch returns an innocuous body. -/
def envVerifiedRun : Env :=
  { trivialEnv with
      net := fun k => if k = 0 then NetEvent.ok respHead200
                      else NetEvent.ok respClean }

/-! ## Helper lemmas -/

/-- `strContains` decides substring occurrence. -/
theorem strContains_iff_infix (s pat : Str) :
    strContains s pat = true ↔ pat <:+: s := by
  induction s with
  | nil =>
    simp [strContains, List.isEmpty_iff]
  | cons c t ih =>
    simp [strContains, ih, List.infix_cons_iff]

/-- The `-mc` accumulation loop is a `filterMap` of the token scanner. -/
theorem mcFold_eq_filterMap (l : List Str) (acc : List Int) :
    l.foldl
      (fun acc part =>
        match scanInt (trimSpace part) with
        | some code => acc ++ [code]
        | none => acc) acc =
    acc ++ l.filterMap (fun p => scanInt (trimSpace p)) := by
  induction l generalizing acc with
  | nil => simp
  | cons hd tl ih =>
    simp only [List.foldl_cons, List.filterMap_cons]
    cases h : scanInt (trimSpace hd) with
    | none => simpa [h] using ih acc
    | some code => simp [h, ih, List.append_assoc]

/-- Title extraction and redirect recording leave the `Alive`,
`Verified` and `Error` fields unchanged. -/
theorem titleAndRedirect_preserves (env : Env) (config : Config)
    (isGET : Bool) (bodyStored : Option Str) (consumed : Nat) (resp : Resp)
    (r : Result) (calls : Nat) :
    (titleAndRedirect env config isGET bodyStored consumed resp r
        calls).1.alive = r.alive ∧
    (titleAndRedirect env config isGET bodyStored consumed resp r
        calls).1.verified = r.verified ∧
    (titleAndRedirect env config isGET bodyStored consumed resp r
        calls).1.error = r.error := by
  unfold titleAndRedirect
  rcases hnet : env.net calls with m | tresp <;>
    by_cases hT : config.extractTitle = true <;>
    by_cases hGS : (isGET && bodyStored.isSome) = true <;>
    by_cases hR : (isRedirect resp.status && !resp.location.isEmpty) = true <;>
    simp [hnet, hT, hGS, hR]

/-- `Alive` component of `titleAndRedirect_preserves`. -/
theorem titleAndRedirect_alive (env : Env) (config : Config)
    (isGET : Bool) (bodyStored : Option Str) (consumed : Nat) (resp : Resp)
    (r : Result) (calls : Nat) :
    (titleAndRedirect env config isGET bodyStored consumed resp r
        calls).1.alive = r.alive :=
  (titleAndRedirect_preserves env config isGET bodyStored consumed resp r
    calls).1

/-- `Verified` component of `titleAndRedirect_preserves`. -/
theorem titleAndRedirect_verified (env : Env) (config : Config)
    (isGET : Bool) (bodyStored : Option Str) (consumed : Nat) (resp : Resp)
    (r : Result) (calls : Nat) :
    (titleAndRedirect env config isGET bodyStored consumed resp r
        calls).1.verified = r.verified :=
  (titleAndRedirect_preserves env config isGET bodyStored consumed resp r
    calls).2.1

/-- `Error` component of `titleAndRedirect_preserves`. -/
theorem titleAndRedirect_error (env : Env) (config : Config)
    (isGET : Bool) (bodyStored : Option Str) (consumed : Nat) (resp : Resp)
    (r : Result) (calls : Nat) :
    (titleAndRedirect env config isGET bodyStored consumed resp r
        calls).1.error = r.error :=
  (titleAndRedirect_preserves env config isGET bodyStored consumed resp r
    calls).2.2

/-- Within the response-processing block, a `Verified` result is also
`Alive`. -/
theorem processResponse_verified_imp_alive (env : Env) (config : Config)
    (rawURL fullURL : Str) (isGET : Bool) (resp : Resp) (calls : Nat)
    (h : (processResponse env config rawURL fullURL isGET resp
            calls).1.verified = true) :
    (processResponse env config rawURL fullURL isGET resp
        calls).1.alive = true := by
  unfold processResponse at h ⊢
  by_cases hA : isAliveStatus resp.status config = true
  · rw [if_pos hA] at h ⊢
    by_cases hV : (!config.fastMode && shouldVerifyResponse resp config) = true
    · rw [if_pos hV] at h ⊢
      rcases hpv : performVerification env isGET
        (storedBody config isGET resp) calls with ⟨vres, calls'⟩
      rw [hpv] at h
      rcases vres with e | b
      · dsimp only at h ⊢
        rw [titleAndRedirect_verified] at h
        simp [emptyResult] at h
      · cases b
        · dsimp only at h
          simp [emptyResult] at h
        · dsimp only
          rw [titleAndRedirect_alive]
    · rw [if_neg hV] at h ⊢
      rw [titleAndRedirect_verified] at h
      simp [emptyResult] at h
  · rw [if_neg hA] at h ⊢
    simp [emptyResult] at h

/-- The protocol loop only emits `Verified` results that are `Alive`. -/
theorem tryProtocols_verified_imp_alive (env : Env) (config : Config)
    (rawURL : Str) (ps : List Str) (le : Option Str) (calls : Nat)
    (h : (tryProtocols env config rawURL ps le calls).1.verified = true) :
    (tryProtocols env config rawURL ps le calls).1.alive = true := by
  induction ps generalizing le calls with
  | nil =>
    simp only [tryProtocols] at h
    simp [emptyResult] at h
  | cons p rest ih =>
    simp only [tryProtocols] at h ⊢
    cases hnet : env.net calls with
    | ok resp =>
      rw [hnet] at h
      dsimp only at h ⊢
      exact processResponse_verified_imp_alive env config rawURL _ _ resp _ h
    | fail m =>
      rw [hnet] at h
      dsimp only at h ⊢
      by_cases hf : config.fastMode = true
      · rw [if_pos hf] at h ⊢
        exact ih _ _ h
      · rw [if_neg hf] at h ⊢
        cases hnet2 : env.net (calls + 1) with
        | ok resp =>
          rw [hnet2] at h
          dsimp only at h ⊢
          exact processResponse_verified_imp_alive env config rawURL _ _
            resp _ h
        | fail m2 =>
          rw [hnet2] at h
          dsimp only at h ⊢
          exact ih _ _ h

/-! ## Claim C1 -/

/-- C1 counterexample: the spec's described alive set (all 2xx, all 3xx,
all 5xx, …) disagrees with the code: 203, 304 and 504 are in the spec's
set but `isAliveStatus` rejects them when no allow-list is configured. -/
theorem c1_counterexample :
    specReliableAlive 203 = true ∧ isAliveStatus 203 defaultConfig = false ∧
    specReliableAlive 304 = true ∧ isAliveStatus 304 defaultConfig = false ∧
    specReliableAlive 504 = true ∧ isAliveStatus 504 defaultConfig = false := by
  decide

/-- C1 (amended): with no status allow-list configured, `isAliveStatus`
accepts exactly the 21 codes hardcoded in `aliveStatuses` — 200, 201,
202, 204, 206, 301, 302, 303, 307, 308, 401, 403, 405, 406, 409, 410,
429, 500, 501, 502, 503 — and rejects every other status, 404 included. -/
theorem c1_default_alive_set (s : Int) (cfg : Config)
    (h : cfg.onlyStatus = []) :
    (isAliveStatus s cfg = true ↔
      s = 200 ∨ s = 201 ∨ s = 202 ∨ s = 204 ∨ s = 206 ∨
      s = 301 ∨ s = 302 ∨ s = 303 ∨ s = 307 ∨ s = 308 ∨
      s = 401 ∨ s = 403 ∨ s = 405 ∨ s = 406 ∨ s = 409 ∨ s = 410 ∨
      s = 429 ∨ s = 500 ∨ s = 501 ∨ s = 502 ∨ s = 503) ∧
    isAliveStatus 404 cfg = false := by
  constructor
  · simp [isAliveStatus, h, aliveStatuses, List.contains]
  · simp [isAliveStatus, h, aliveStatuses, List.contains]

/-- C1 witness: the amended theorem applied at 403 (alive) and 404 (dead)
under the default configuration. -/
theorem c1_witness :
    isAliveStatus 403 defaultConfig = true ∧
    isAliveStatus 404 defaultConfig = false :=
  ⟨(c1_default_alive_set 403 defaultConfig rfl).1.mpr (by decide),
   (c1_default_alive_set 404 defaultConfig rfl).2⟩

/-! ## Claim C6 -/

/-- C6: with a nonempty allow-list, membership is necessary and
sufficient for the alive classification; with allow-list `[200, 301]`,
status 403 is classified dead although it is in the default alive set. -/
theorem c6_allowlist_exclusive (s : Int) (cfg : Config)
    (h : cfg.onlyStatus ≠ []) :
    (isAliveStatus s cfg = true ↔ s ∈ cfg.onlyStatus) ∧
    isAliveStatus 403 { cfg with onlyStatus := [200, 301] } = false := by
  constructor
  · have hlen : 0 < cfg.onlyStatus.length := List.length_pos.mpr h
    simp [isAliveStatus, hlen, List.contains]
  · simp [isAliveStatus, List.contains]

/-- C6 witness: the theorem applied to the `{200, 301}` allow-list. -/
theorem c6_witness :
    (isAliveStatus 403 allowListConfig = true ↔
      403 ∈ allowListConfig.onlyStatus) ∧
    isAliveStatus 403 { allowListConfig with onlyStatus := [200, 301] } =
      false :=
  c6_allowlist_exclusive 403 allowListConfig (by decide)

/-! ## Claim C3 -/

/-- C3 counterexample: the spec's trigger condition (any 2xx) disagrees
with the code, which requires status exactly 200 — a 201 HTML response
from nginx in default mode is verified per the spec but not by the code;
moreover with both mode flags set, fast mode wins over verify mode, so
"always in verify mode" also fails. -/
theorem c3_counterexample :
    (specShouldVerify resp201 defaultConfig = true ∧
     shouldVerifyResponse resp201 defaultConfig = false) ∧
    ({ defaultConfig with fastMode := true, verifyMode := true }.verifyMode
        = true ∧
     shouldVerifyResponse resp201
       { defaultConfig with fastMode := true, verifyMode := true } = false) := by
  decide

/-- C3 (amended): fast mode unconditionally disables verification (taking
precedence over verify mode); with fast mode unset, verify mode forces
it; in default mode verification happens exactly when the status is
exactly 200, the content type contains `text/html`, and the lowercased
server header contains one of the generic signatures. -/
theorem c3_should_verify (resp : Resp) (cfg : Config) :
    (cfg.fastMode = true → shouldVerifyResponse resp cfg = false) ∧
    (cfg.fastMode = false → cfg.verifyMode = true →
      shouldVerifyResponse resp cfg = true) ∧
    (cfg.fastMode = false → cfg.verifyMode = false →
      (shouldVerifyResponse resp cfg = true ↔
        resp.status = 200 ∧
        strContains (lowerStr resp.contentType) "text/html".data = true ∧
        ∃ sig ∈ genericServerSignatures,
          strContains (lowerStr resp.server) sig = true)) := by
  refine ⟨fun hf => by simp [shouldVerifyResponse, hf],
          fun hf hv => by simp [shouldVerifyResponse, hf, hv],
          fun hf hv => ?_⟩
  simp only [shouldVerifyResponse, hf, hv, Bool.false_eq_true, if_false,
    List.any_eq_true, Bool.and_eq_true, beq_iff_eq]
  constructor
  · rintro ⟨sig, hmem, ⟨hsv, h200⟩, hct⟩
    exact ⟨h200, hct, sig, hmem, hsv⟩
  · rintro ⟨h200, hct, sig, hmem, hsv⟩
    exact ⟨sig, hmem, ⟨hsv, h200⟩, hct⟩

/-- C3 witness: the amended theorem's default-mode criterion applied to a
200 `text/html` nginx response. -/
theorem c3_witness :
    shouldVerifyResponse respHead200 defaultConfig = true :=
  ((c3_should_verify respHead200 defaultConfig).2.2 rfl rfl).mpr
    ⟨rfl, by decide, "nginx".data, by decide, by decide⟩

/-! ## Claim C4 -/

/-- C4: body verification trivially passes without a body; with a body it
fails exactly when some phrase of the fixed catalogue occurs as a
substring of the lowercased 2048-character read prefix. -/
theorem c4_verify_body (b : Str) :
    verifyResponseBody none = true ∧
    (verifyResponseBody (some b) = false ↔
      ∃ p ∈ falsePositivePatterns, p <:+: lowerStr (b.take 2048)) := by
  refine ⟨rfl, ?_⟩
  simp [verifyResponseBody, List.any_eq_true, strContains_iff_infix]

/-- C4 witness: the theorem applied to a mixed-case parked-domain body. -/
theorem c4_witness :
    verifyResponseBody (some "Buy: DOMAIN For Sale now!".data) = false :=
  (c4_verify_body "Buy: DOMAIN For Sale now!".data).2.mpr
    ⟨"domain for sale".data, by decide, by decide⟩

/-! ## Claim C9 -/

/-- C9 counterexample: the token `200abc` is not an integer token, yet it
is not skipped — the `Sscanf`-style scan accepts its leading digits and
the parse yields `[200]` rather than the empty list. -/
theorem c9_counterexample :
    isIntegerToken "200abc".data = false ∧
    parseStatusCodes "200abc".data = [200] := by
  decide

/-- C9 (amended): `-mc` parsing is total and never rejects its input;
after comma-splitting, each trimmed token is scanned for a leading
optionally-signed integer (`Sscanf` `%d`), the accepted values are kept
(and sorted), and tokens with no leading integer are silently skipped. -/
theorem c9_parse_status_codes (s : Str) :
    List.Perm (parseStatusCodes s)
      ((List.splitOn ',' s).filterMap (fun p => scanInt (trimSpace p))) ∧
    ∀ n : Int, (n ∈ parseStatusCodes s ↔
      ∃ tok ∈ List.splitOn ',' s, scanInt (trimSpace tok) = some n) := by
  have hperm : List.Perm (parseStatusCodes s)
      ((List.splitOn ',' s).filterMap (fun p => scanInt (trimSpace p))) := by
    unfold parseStatusCodes
    by_cases hs : s.isEmpty = true
    · rw [if_pos hs]
      have hnil : s = [] := List.isEmpty_iff.mp hs
      subst hnil
      exact List.Perm.nil
    · rw [if_neg hs, mcFold_eq_filterMap]
      simpa using List.perm_insertionSort (· ≤ ·) _
  refine ⟨hperm, fun n => ?_⟩
  rw [hperm.mem_iff, List.mem_filterMap]

/-- C9 witness: the amended theorem applied to the input `301, 200,abc`,
whose token ` 200` contributes the value 200; an all-digit token
overflowing the signed 64-bit range is skipped like any rejected token. -/
theorem c9_witness :
    (200 : Int) ∈ parseStatusCodes "301, 200,abc".data ∧
    parseStatusCodes "99999999999999999999999".data = [] :=
  ⟨((c9_parse_status_codes "301, 200,abc".data).2 200).mpr
    ⟨" 200".data, by decide, by decide⟩, by decide⟩

/-! ## Claim C2 -/

/-- C2: when a response is classified alive by status and verification is
triggered, a not-verified verdict from the verification pass overrides
the classification: the produced `Result` is not alive and its error is
`false_positive_detected`. -/
theorem c2_false_positive_override (env : Env) (config : Config)
    (rawURL fullURL : Str) (isGET : Bool) (resp : Resp) (calls : Nat)
    (halive : isAliveStatus resp.status config = true)
    (hver : (!config.fastMode && shouldVerifyResponse resp config) = true)
    (hnotv : (performVerification env isGET (storedBody config isGET resp)
                calls).1 = Except.ok false) :
    (processResponse env config rawURL fullURL isGET resp calls).1.alive
        = false ∧
    (processResponse env config rawURL fullURL isGET resp calls).1.error
        = "false_positive_detected".data := by
  unfold processResponse
  rw [if_pos halive, if_pos hver]
  rcases hpv : performVerification env isGET (storedBody config isGET resp)
      calls with ⟨vres, calls'⟩
  rw [hpv] at hnotv
  dsimp only at hnotv
  subst hnotv
  exact ⟨rfl, rfl⟩

/-- C2 witness: a 200 nginx response probed by HEAD in verify mode whose
verification fetch returns a mixed-case for-sale body. -/
theorem c2_witness :
    (processResponse envParked verifyConfig "example.com".data
        "https://example.com".data false respHead200 0).1.alive = false ∧
    (processResponse envParked verifyConfig "example.com".data
        "https://example.com".data false respHead200 0).1.error =
      "false_positive_detected".data :=
  c2_false_positive_override envParked verifyConfig "example.com".data
    "https://example.com".data false respHead200 0 rfl rfl rfl

/-! ## Claim C5 -/

/-- C5: a malformed candidate — empty, longer than 200 characters, or
containing a forbidden character — yields a dead `Result` with error
`invalid_url` and zero network calls. -/
theorem c5_invalid_url (env : Env) (config : Config) (rawURL : Str)
    (h : rawURL = [] ∨ 200 < rawURL.length ∨
         ∃ c ∈ forbiddenChars, c ∈ rawURL) :
    (CheckURL env config rawURL).1.alive = false ∧
    (CheckURL env config rawURL).1.error = "invalid_url".data ∧
    (CheckURL env config rawURL).2 = 0 := by
  have hvalid : isValidURL env.parseOK rawURL = false := by
    unfold isValidURL
    rcases h with h | h | ⟨c, hc, hcu⟩
    · subst h; simp
    · simp [h]
    · have hany : rawURL.any (fun c => forbiddenChars.contains c) = true :=
        List.any_eq_true.mpr ⟨c, hcu, by simp [List.contains, hc]⟩
      by_cases h1 : (rawURL.isEmpty || decide (200 < rawURL.length)) = true
      · rw [if_pos h1]
      · rw [if_neg h1, if_pos hany]
  unfold CheckURL
  rw [hvalid]
  simp [emptyResult]

/-- C5 witness: a candidate containing a space. -/
theorem c5_witness :
    (CheckURL trivialEnv defaultConfig "bad url".data).1.alive = false ∧
    (CheckURL trivialEnv defaultConfig "bad url".data).1.error =
      "invalid_url".data ∧
    (CheckURL trivialEnv defaultConfig "bad url".data).2 = 0 :=
  c5_invalid_url trivialEnv defaultConfig "bad url".data
    (Or.inr (Or.inr ⟨' ', by decide, by decide⟩))

/-! ## Claim C7 -/

/-- C7: when every network call fails (so both protocol attempts end in a
transport error), the `Result` is dead and its error starts with
`connection_failed:` (an error message is always recorded on this path,
so the `no_response` alternative is vacuous). -/
theorem c7_connection_failed (env : Env) (config : Config) (rawURL : Str)
    (hvalid : isValidURL env.parseOK rawURL = true)
    (hfail : ∀ k, ∃ m, env.net k = NetEvent.fail m) :
    (CheckURL env config rawURL).1.alive = false ∧
    "connection_failed:".data <+: (CheckURL env config rawURL).1.error := by
  obtain ⟨m0, h0⟩ := hfail 0
  obtain ⟨m1, h1⟩ := hfail 1
  obtain ⟨m2, h2⟩ := hfail 2
  obtain ⟨m3, h3⟩ := hfail 3
  unfold CheckURL
  rw [hvalid]
  by_cases hf : config.fastMode = true
  · simp only [tryProtocols, h0, h1, hf, if_true, if_pos]
    refine ⟨by simp [emptyResult], ?_⟩
    exact ⟨' ' :: m1, rfl⟩
  · simp only [tryProtocols, h0, h1, h2, h3, hf, if_neg, if_false]
    refine ⟨by simp [emptyResult], ?_⟩
    exact ⟨' ' :: m3, rfl⟩

/-- C7 witness: an environment refusing every connection. -/
theorem c7_witness :
    (CheckURL trivialEnv defaultConfig "example.com".data).1.alive = false ∧
    "connection_failed:".data <+:
      (CheckURL trivialEnv defaultConfig "example.com".data).1.error :=
  c7_connection_failed trivialEnv defaultConfig "example.com".data rfl
    (fun _ => ⟨"refused".data, rfl⟩)

/-! ## Claim C8 -/

/-- C8: for both extraction strategies, a cleaned title longer than 100
characters is truncated to exactly its first 100 characters followed by
the `...` marker, and a title of at most 100 characters is returned
unchanged. -/
theorem c8_title_truncation (body raw : Str) (scan : Str → Option Str)
    (d : Str) :
    (fastSlice body = some raw →
      extractTitleFast body = truncate100 (cleanFast raw) ∧
      (100 < (cleanFast raw).length →
        extractTitleFast body = (cleanFast raw).take 100 ++ "...".data ∧
        ((cleanFast raw).take 100).length = 100) ∧
      ((cleanFast raw).length ≤ 100 →
        extractTitleFast body = cleanFast raw)) ∧
    (scan (body.take TITLE_BODY_SIZE) = some d →
      extractTitleRobust scan body = truncate100 (cleanRobust d) ∧
      (100 < (cleanRobust d).length →
        extractTitleRobust scan body =
          (cleanRobust d).take 100 ++ "...".data ∧
        ((cleanRobust d).take 100).length = 100) ∧
      ((cleanRobust d).length ≤ 100 →
        extractTitleRobust scan body = cleanRobust d)) := by
  constructor
  · intro hs
    have he : extractTitleFast body = truncate100 (cleanFast raw) := by
      unfold extractTitleFast
      rw [hs]
    refine ⟨he, fun hlen => ⟨?_, ?_⟩, fun hlen => ?_⟩
    · rw [he]; unfold truncate100; rw [if_pos hlen]
    · rw [List.length_take]; omega
    · rw [he]; unfold truncate100; rw [if_neg (by omega)]
  · intro hs
    have he : extractTitleRobust scan body = truncate100 (cleanRobust d) := by
      unfold extractTitleRobust
      rw [hs]
    refine ⟨he, fun hlen => ⟨?_, ?_⟩, fun hlen => ?_⟩
    · rw [he]; unfold truncate100; rw [if_pos hlen]
    · rw [List.length_take]; omega
    · rw [he]; unfold truncate100; rw [if_neg (by omega)]

/-- A body whose title is 105 characters long. -/
def titleBody105 : Str :=
  "<title>".data ++ List.replicate 105 'a' ++ "</title>".data

set_option maxRecDepth 40000 in
/-- C8 witness: both strategies truncate a 105-character title to 100
characters plus the marker. -/
theorem c8_witness :
    extractTitleFast titleBody105 =
      List.replicate 100 'a' ++ "...".data ∧
    extractTitleRobust (fun _ => some (List.replicate 105 'a'))
        titleBody105 = List.replicate 100 'a' ++ "...".data := by
  have h := c8_title_truncation titleBody105 (List.replicate 105 'a')
    (fun _ => some (List.replicate 105 'a')) (List.replicate 105 'a')
  obtain ⟨hfa, -⟩ := (h.1 (by decide)).2.1 (by decide)
  obtain ⟨hra, -⟩ := (h.2 rfl).2.1 (by decide)
  refine ⟨?_, ?_⟩
  · rw [hfa]; decide
  · rw [hra]; decide

/-! ## Claim C10 -/

/-- C10: invariant of every probe — a `Result` marked `Verified` is also
marked `Alive`. -/
theorem c10_verified_implies_alive (env : Env) (config : Config)
    (rawURL : Str)
    (h : (CheckURL env config rawURL).1.verified = true) :
    (CheckURL env config rawURL).1.alive = true := by
  unfold CheckURL at h ⊢
  by_cases hv : isValidURL env.parseOK rawURL = true
  · rw [if_pos hv] at h ⊢
    exact tryProtocols_verified_imp_alive env config rawURL _ _ _ h
  · rw [if_neg hv] at h ⊢
    simp [emptyResult] at h

/-- C10 witness: a verify-mode run whose verification fetch succeeds with
an innocuous body, producing a verified and alive result. -/
theorem c10_witness :
    (CheckURL envVerifiedRun verifyConfig "example.com".data).1.alive
      = true :=
  c10_verified_implies_alive envVerifiedRun verifyConfig
    "example.com".data (by decide)

end AliveHunter
